import Mathlib

/-!
Shallow embedding of the thirdeye-ai-backend RAG chatbot backend, together with
proofs about its guardrails, chat endpoint, ingestion endpoint, vector-store
versioning, PDF text cleaning and the stateful RAG graph.

Python strings are modelled as `List Char` (`Str`), so that Python's
substring test `a in b`, `str.lower`, `str.strip`, slicing and `str.split`
become ordinary list operations.  Machine-specific aspects (UUID generation,
timestamps, network calls) are modelled as parameters or abstract data.
-/

namespace ThirdEye

/-- A Python string, modelled as a list of characters. -/
abbrev Str := List Char

/-- Python's whitespace test for the `\s` regex class and `str.strip`
(ASCII range: space, tab, newline, carriage return, vertical tab, form feed). -/
def pyIsSpace (c : Char) : Bool :=
  c = ' ' || c = '\t' || c = '\n' || c = '\r' || c = '\x0b' || c = '\x0c'

/-- Python's `str.lower`, character by character (the keyword lists involved
are ASCII, where `Char.toLower` agrees with Python). -/
def pyLower (s : Str) : Str := s.map Char.toLower

/-- Python's substring test `needle in haystack`: does `p` occur as a
contiguous substring of `s`? -/
def occursIn (p : Str) : Str → Bool
  | [] => p.isEmpty
  | c :: rest => p.isPrefixOf (c :: rest) || occursIn p rest

/-- Python's `str.strip()`: remove leading and trailing whitespace. -/
def pyStrip (s : Str) : Str :=
  ((s.dropWhile pyIsSpace).reverse.dropWhile pyIsSpace).reverse

/-- Concatenation of a list of strings (`"".join` / accumulating `+=`). -/
def strConcat (l : List Str) : Str := l.flatten

namespace Guardrails

/-- Medical/diagnostic keywords flagged by the guardrails
(`Guardrails.MEDICAL_KEYWORDS` in `app/rag/guardrails.py`). -/
def MEDICAL_KEYWORDS : List Str :=
  ["diagnose", "diagnosis", "cure", "treat", "treatment",
   "prescribe", "prescription", "medication", "drug",
   "disease", "disorder", "condition", "illness"].map String.data

/-- Emergency keywords checked by `check_query`. -/
def emergency_keywords : List Str :=
  ["emergency", "crisis", "suicide", "harm"].map String.data

/-- Result of `Guardrails.check_query`. -/
structure QueryCheck where
  is_safe : Bool
  issues : List String
  requires_disclaimer : Bool
deriving DecidableEq, Repr

/-- Model of `Guardrails.check_query`: lower-case the query, flag `medical_query` if any
medical keyword occurs, flag `emergency` if any emergency keyword occurs. -/
def check_query (query : Str) : QueryCheck :=
  let query_lower := pyLower query
  let issues :=
    (if MEDICAL_KEYWORDS.any (fun k => occursIn k query_lower) then ["medical_query"] else [])
    ++ (if emergency_keywords.any (fun k => occursIn k query_lower) then ["emergency"] else [])
  { is_safe := issues.length == 0
    issues := issues
    requires_disclaimer := issues.length > 0 }

/-- Result of `Guardrails.check_response`. -/
structure ResponseCheck where
  is_safe : Bool
  issues : List String
  suggestions : List String
deriving DecidableEq, Repr

/-- Model of `Guardrails.check_response`: flag `contains_medical_advice` on a medical
keyword, `missing_citations` when `[source:` is absent, and
`missing_safety_warning` when a practice is mentioned with no warning term. -/
def check_response (response : Str) : ResponseCheck :=
  let response_lower := pyLower response
  let medical := MEDICAL_KEYWORDS.any (fun k => occursIn k response_lower)
  let noCitation := !occursIn "[source:".data response_lower
  let has_practice :=
    (["practice", "technique", "exercise", "meditation"].map String.data).any
      (fun k => occursIn k response_lower)
  let has_warning :=
    (["caution", "warning", "risk", "contraindication"].map String.data).any
      (fun k => occursIn k response_lower)
  let issues :=
    (if medical then ["contains_medical_advice"] else [])
    ++ (if noCitation then ["missing_citations"] else [])
    ++ (if has_practice && !has_warning then ["missing_safety_warning"] else [])
  let suggestions :=
    (if medical then ["Remove medical advice and add disclaimer"] else [])
    ++ (if noCitation then ["Add source citations"] else [])
    ++ (if has_practice && !has_warning then ["Add safety warnings or contraindications"] else [])
  { is_safe := issues.length == 0, issues := issues, suggestions := suggestions }

/-- The fixed `medical` disclaimer string from `Guardrails.DISCLAIMERS`. -/
def DISCLAIMER_medical : Str :=
  "⚠️ This is not medical advice. Consult a healthcare professional for medical concerns.".data

/-- The fixed `spiritual` disclaimer string from `Guardrails.DISCLAIMERS`. -/
def DISCLAIMER_spiritual : Str :=
  "🙏 This guidance is based on traditional teachings. Individual experiences may vary.".data

/-- The fixed `safety` disclaimer string from `Guardrails.DISCLAIMERS`. -/
def DISCLAIMER_safety : Str :=
  "⚠️ If you experience discomfort, dizziness, or distress, stop the practice and seek guidance.".data

/-- Lookup in the `DISCLAIMERS` dict: `some` text for a known type, `none`
otherwise (models `dtype in self.DISCLAIMERS` plus indexing). -/
def DISCLAIMERS_lookup (dtype : String) : Option Str :=
  if dtype = "medical" then some DISCLAIMER_medical
  else if dtype = "spiritual" then some DISCLAIMER_spiritual
  else if dtype = "safety" then some DISCLAIMER_safety
  else none

/-- Model of `Guardrails.add_disclaimers`: collect the disclaimer text of every
requested type present in `DISCLAIMERS` (in request order, one entry per
occurrence), and if any were collected append `"\n\n"` plus the collected
texts joined by `"\n"`. -/
def add_disclaimers (response : Str) (disclaimer_types : List String) : Str :=
  let disclaimers := disclaimer_types.filterMap DISCLAIMERS_lookup
  if disclaimers.isEmpty then response
  else response ++ "\n\n".data ++ List.intercalate "\n".data disclaimers

/-- Model of `Guardrails.handle_emergency`: the fixed emergency response text. -/
def handle_emergency : Str :=
  ("🚨 If you're experiencing a mental health emergency or crisis, please:\n\n"
   ++ "1. Call emergency services (911 in US)\n"
   ++ "2. Contact a crisis helpline:\n"
   ++ "   - National Suicide Prevention Lifeline: 988\n"
   ++ "   - Crisis Text Line: Text HOME to 741741\n"
   ++ "3. Go to your nearest emergency room\n\n"
   ++ "This chatbot provides meditation guidance only and cannot help with emergencies. Please seek immediate professional help.").data

end Guardrails

namespace RAGChain

/-- A citation parsed from generated text (`{title, reference}` dict). -/
structure Citation where
  title : Str
  reference : Str
deriving DecidableEq, Repr

/-- The literal prefix of the citation regex `\[Source:\s*([^,]+),\s*([^\]]+)\]`. -/
def SOURCE_LIT : Str := "[Source:".data

/-- One group of the citation regex: `\s*([^X]+)X` for a stop character `X`
(`,` for the title, `]` for the reference), with Python's greedy matching.
Both `\s*` and `[^X]+` stop at the first `X`, so the `X` consumed is the first
occurrence of `X`; `[^X]+` needs at least one character, so the greedy `\s*`
backtracks by one character when everything before the first `X` is
whitespace.  Returns the captured group and the text after the stop char. -/
def takeGroup (stop : Char) (r : Str) : Option (Str × Str) :=
  match r.findIdx? (· = stop) with
  | none => none
  | some k =>
    if k = 0 then none
    else
      let before := r.take k
      let m := (before.takeWhile pyIsSpace).length
      some (before.drop (min m (k - 1)), r.drop (k + 1))

/-- Attempt to match the citation regex at the start of `s`; on success return
the citation (with both groups stripped, as `extract_citations` does) and the
text following the final `]`. -/
def matchCitationAt (s : Str) : Option (Citation × Str) :=
  if SOURCE_LIT.isPrefixOf s then
    match takeGroup ',' (s.drop SOURCE_LIT.length) with
    | none => none
    | some (g1, r2) =>
      match takeGroup ']' r2 with
      | none => none
      | some (g2, r3) => some ({ title := pyStrip g1, reference := pyStrip g2 }, r3)
  else none

/-- Left-to-right, non-overlapping scan of `re.findall`: try to match at each
position, resuming after the end of each match.  The fuel argument is the
length of the scanned text; every recursive call strictly shrinks the text, so
the fuel never runs out. -/
def findCitationsAux : Nat → Str → List Citation
  | 0, _ => []
  | _ + 1, [] => []
  | fuel + 1, c :: rest =>
    match matchCitationAt (c :: rest) with
    | some (cit, remaining) => cit :: findCitationsAux fuel remaining
    | none => findCitationsAux fuel rest

/-- Model of `RAGChain.extract_citations`: find every `[Source: title, reference]`
marker (regex `\[Source:\s*([^,]+),\s*([^\]]+)\]`) and return the trimmed
title/reference pairs in order. -/
def extract_citations (s : Str) : List Citation :=
  findCitationsAux s.length s

end RAGChain

namespace RoutesChat

open Guardrails RAGChain

/-- A chat message (`Message` model in `app/api/routes_chat.py`). -/
structure Message where
  role : String
  content : Str
deriving DecidableEq, Repr

/-- A chat request (`ChatRequest` model): messages, optional persona, stream flag. -/
structure ChatRequest where
  messages : List Message
  persona : Option String
  stream : Bool
deriving DecidableEq, Repr

/-- One server-sent event emitted by the streaming branch of `POST /chat`. -/
inductive Event where
  /-- An SSE frame of type `content` carrying one generated chunk. -/
  | content (chunk : Str)
  /-- An SSE frame of type `citations` carrying the extracted citations. -/
  | citations (cites : List Citation)
  /-- The terminating `data: [DONE]` frame. -/
  | done
deriving DecidableEq, Repr

/-- The observable outcome of one `POST /chat` request. -/
inductive ChatResult where
  /-- An `HTTPException` with a 400 status. -/
  | badRequest (detail : String)
  /-- Non-streaming `ChatResponse` (the per-request random `request_id` is
  not modelled). -/
  | response (resp : Str) (citations : List Citation)
  /-- A `StreamingResponse` whose body is the given event sequence. -/
  | streamResp (events : List Event)
deriving DecidableEq, Repr

/-- The content of the last message with role `user`, if any
(`user_messages[-1].content` after the filter in the handler). -/
def lastUserContent (req : ChatRequest) : Option Str :=
  ((req.messages.filter (fun m => m.role == "user")).getLast?).map (·.content)

/-- The disclaimer step shared (as identical code) by the streaming and the
non-streaming branch of the `chat` handler: when the query check of `query`
requires a disclaimer, run `add_disclaimers` on the accumulated response,
requesting `medical` exactly when `medical_query` was flagged. -/
def finalTextWithDisclaimers (query : Str) (full_response : Str) : Str :=
  let query_check := check_query query
  if query_check.requires_disclaimer then
    add_disclaimers full_response
      (if "medical_query" ∈ query_check.issues then ["medical"] else [])
  else full_response

/-- The part of the `chat` handler from the guardrail query check onward
(lines 60-136 of `app/api/routes_chat.py`).  This code reads only the query
text and the stream flag.  The RAG chain (`rag_chain.invoke`, which performs
retrieval and generation) is abstracted as the oracle `rag`, mapping a query
to the list of generated chunks; the accumulated response is their
concatenation in both the streaming and non-streaming branch.  The source
also calls `guardrails.check_response(full_response)` in the streaming branch
but never uses its (pure) result, so that call is dropped here.  The
disclaimer logic is written once: both source branches perform the identical
accumulate-then-add-disclaimers steps. -/
def chatQuery (rag : Str → List Str) (query : Str) (stream : Bool) : ChatResult :=
  let query_check := check_query query
  if "emergency" ∈ query_check.issues then
    ChatResult.response handle_emergency []
  else
    let chunks := rag query
    let full_response := finalTextWithDisclaimers query (strConcat chunks)
    if stream then
      ChatResult.streamResp
        ((chunks.map Event.content)
          ++ [Event.citations (extract_citations full_response), Event.done])
    else
      ChatResult.response full_response (extract_citations full_response)

/-- The `POST /chat` handler: reject when no message has role `user`,
otherwise process the last user message's content. -/
def chat (rag : Str → List Str) (req : ChatRequest) : ChatResult :=
  let user_messages := req.messages.filter (fun m => m.role == "user")
  match user_messages.getLast? with
  | none => ChatResult.badRequest "No user message found"
  | some m => chatQuery rag m.content req.stream

/-- Concatenation of the chunks of all `content`-type events of a stream. -/
def contentConcat : List Event → Str
  | [] => []
  | Event.content c :: es => c ++ contentConcat es
  | _ :: es => contentConcat es

end RoutesChat

namespace RAGGraph

open Guardrails RAGChain

/-- The `self.max_retries` budget set in `RAGGraph.__init__`. -/
def max_retries : Nat := 2

/-- The `GraphState` threaded through the stateful RAG graph
(`app/rag/graph.py`).  Retrieved documents are abstracted to their content
strings (the graph's gates read only the length of the list).  The
append-only `messages` log is never read by any node and is omitted. -/
structure GraphState where
  query : Str
  rewritten_query : Str
  documents : List Str
  response : Str
  citations : List Citation
  needs_retry : Bool
  retry_count : Nat
deriving DecidableEq, Repr

/-- Model of `RAGGraph._check_retrieval_node`: retry when fewer than 2 documents were
retrieved and the shared budget is not exhausted; increment the counter only
when retrying. -/
def check_retrieval_node (s : GraphState) : GraphState :=
  let needs_retry := decide (s.documents.length < 2 ∧ s.retry_count < max_retries)
  { s with needs_retry := needs_retry
           retry_count := if needs_retry then s.retry_count + 1 else s.retry_count }

/-- The critical-issue test of `RAGGraph._check_response_node`: does the
guardrails response check report `missing_citations` or
`contains_medical_advice`? -/
def hasCriticalIssue (response : Str) : Bool :=
  ["missing_citations", "contains_medical_advice"].any
    (fun issue => (check_response response).issues.contains issue)

/-- Model of `RAGGraph._check_response_node`: retry on a critical response issue while
the shared budget is not exhausted; increment the counter only when
retrying. -/
def check_response_node (s : GraphState) : GraphState :=
  let needs_retry := hasCriticalIssue s.response && decide (s.retry_count < max_retries)
  { s with needs_retry := needs_retry
           retry_count := if needs_retry then s.retry_count + 1 else s.retry_count }

/-- The six nodes of the compiled workflow, plus the `END` sentinel. -/
inductive Node where
  | rewrite_query | retrieve | check_retrieval | generate
  | check_response | add_citations | terminal
deriving DecidableEq, Repr

/-- A configuration of the running graph: current node plus state. -/
abbrev Config := Node × GraphState

/-- One transition of the compiled workflow.  The LLM and the retriever are
nondeterministic environments: `_rewrite_query_node` stores an arbitrary
rewritten query (covering both the normal path, where the LLM returns
anything, and the exception path, which falls back to the original query)
and leaves `retry_count` unchanged; `_retrieve_node` stores an arbitrary
document list (empty on failure); `_generate_node` stores an arbitrary
response (the fixed apology on failure).  The retrieval and response gates
are deterministic, and the conditional edges route `retry`/`continue`
exactly as `_build_graph` wires them. -/
inductive GStep : Config → Config → Prop where
  | rewrite (s : GraphState) (q : Str) :
      GStep (Node.rewrite_query, s) (Node.retrieve, { s with rewritten_query := q })
  | retrieveDocs (s : GraphState) (docs : List Str) :
      GStep (Node.retrieve, s) (Node.check_retrieval, { s with documents := docs })
  | checkRetrieval (s : GraphState) :
      GStep (Node.check_retrieval, s)
        (if (check_retrieval_node s).needs_retry then Node.rewrite_query else Node.generate,
         check_retrieval_node s)
  | generateResp (s : GraphState) (resp : Str) :
      GStep (Node.generate, s) (Node.check_response, { s with response := resp })
  | checkResponse (s : GraphState) :
      GStep (Node.check_response, s)
        (if (check_response_node s).needs_retry then Node.retrieve else Node.add_citations,
         check_response_node s)
  | addCitations (s : GraphState) :
      GStep (Node.add_citations, s)
        (Node.terminal, { s with citations := extract_citations s.response })

/-- The initial state seeded by `RAGGraph.invoke`. -/
def initial_state (query : Str) : GraphState :=
  { query := query, rewritten_query := [], documents := [], response := []
    citations := [], needs_retry := false, retry_count := 0 }

/-- Configurations reachable from the entry point for a given query. -/
def Reachable (query : Str) (c : Config) : Prop :=
  Relation.ReflTransGen GStep (Node.rewrite_query, initial_state query) c

end RAGGraph

namespace VectorStore

/-- One record of the search index, as written by `upsert_documents`
(`app/ingestion/vectorstore.py`).  The per-chunk random UUID key `id`, the
`page`/`section`/`url` fields and the embedding vector are never read by the
operations verified here and are omitted. -/
structure SearchRecord where
  doc_id : String
  version : Nat
  is_latest : Bool
  title : Str
  content : Str
  source : String
  timestamp : String
deriving DecidableEq, Repr

/-- The whole search index, as the ordered list of its records. -/
abbrev Store := List SearchRecord

/-- An input chunk of `upsert_documents` (the fields it copies). -/
structure DocChunk where
  content : Str
  title : Str
  source : String
deriving DecidableEq, Repr

/-- Model of `VectorStore._mark_old_versions`: flip `is_latest` to false on every
record of `doc_id` currently marked latest (the source selects those
records' ids and patches them via `merge_documents`). -/
def mark_old_versions (store : Store) (doc_id : String) : Store :=
  store.map (fun r =>
    if r.doc_id == doc_id && r.is_latest then { r with is_latest := false } else r)

/-- The batch of new records built by `upsert_documents`: one per chunk, with
the given `doc_id` and `version`, `is_latest = true`, and the chunk's
metadata.  Each record also receives a fresh random UUID key and the current
UTC time, modelled by the `timestamp` parameter shared by the batch. -/
def mkSearchDocuments (documents : List DocChunk) (doc_id : String) (version : Nat)
    (timestamp : String) : List SearchRecord :=
  documents.map (fun doc =>
    { doc_id := doc_id, version := version, is_latest := true
      title := doc.title, content := doc.content, source := doc.source
      timestamp := timestamp })

/-- The effect of a successful `VectorStore.upsert_documents` on the index:
when `version > 1` first mark previous latest records of `doc_id` as not
latest, then upload the batch of new records (fresh UUID keys, so the upload
appends). -/
def upsert_documents (store : Store) (documents : List DocChunk) (doc_id : String)
    (version : Nat) (timestamp : String) : Store :=
  (if version > 1 then mark_old_versions store doc_id else store)
    ++ mkSearchDocuments documents doc_id version timestamp

/-- The payload returned by `check_document_ingested` (the dict's optional
keys are modelled as `Option` fields). -/
structure IngestStatus where
  ingested : Bool
  doc_id : String
  version : Option Nat
  title : Option Str
  source : Option String
  timestamp : Option String
  total_docs_in_index : Option Nat
  total_docs_for_id : Option Nat
  error : Option String
deriving DecidableEq, Repr

/-- Model of `VectorStore.check_document_ingested`: count all records, count the
records of `doc_id`, and look up (top 1) a record of `doc_id` marked latest;
report its metadata when found, a negative result otherwise.  Any exception
from the underlying search calls is caught and turned into a negative result
carrying the error text; failure of the external service is modelled by the
`err` parameter (`none` = all calls succeed). -/
def check_document_ingested (store : Store) (err : Option String) (doc_id : String) :
    IngestStatus :=
  match err with
  | some e =>
    { ingested := false, doc_id := doc_id, version := none, title := none
      source := none, timestamp := none, total_docs_in_index := none
      total_docs_for_id := none, error := some e }
  | none =>
    let count_all := store.length
    let docs_for_id := store.filter (fun r => r.doc_id == doc_id)
    let latest_list := (store.filter (fun r => r.doc_id == doc_id && r.is_latest)).take 1
    match latest_list with
    | [] =>
      { ingested := false, doc_id := doc_id, version := none, title := none
        source := none, timestamp := none, total_docs_in_index := some count_all
        total_docs_for_id := some docs_for_id.length, error := none }
    | latest :: _ =>
      { ingested := true, doc_id := latest.doc_id, version := some latest.version
        title := some latest.title, source := some latest.source
        timestamp := some latest.timestamp, total_docs_in_index := some count_all
        total_docs_for_id := some docs_for_id.length, error := none }

end VectorStore

namespace PDFPipeline

/-- Model of `re.sub(r'\s+', ' ', text)`: replace every maximal run of whitespace by a
single space.  The flag records whether the previous character was part of a
whitespace run already replaced. -/
def collapseWsAux : Bool → Str → Str
  | _, [] => []
  | prevWs, c :: rest =>
    if pyIsSpace c then
      (if prevWs then [] else [' ']) ++ collapseWsAux true rest
    else c :: collapseWsAux false rest

/-- First step of `PDFPipeline._clean_text`: collapse whitespace runs
(including newlines) to single spaces. -/
def collapseWhitespace (s : Str) : Str := collapseWsAux false s

/-- Second step of `PDFPipeline._clean_text`:
`re.sub(r'^\d+\s*$', '', text, flags=re.MULTILINE)`, specialised to input
without newline characters — which is every input this step receives inside
`_clean_text`, because `collapseWhitespace` has already replaced every
newline by a space.  With no newlines, `^` and `$` anchor only at the start
and the end of the whole string, so the substitution erases the whole string
exactly when it is one or more digits followed by optional whitespace. -/
def re_sub_digit_lines (s : Str) : Str :=
  let digits := s.takeWhile Char.isDigit
  if !digits.isEmpty && (s.drop digits.length).all pyIsSpace then [] else s

/-- Third step of `PDFPipeline._clean_text`: the header/footer heuristic.
When there are more than two lines, drop the first line if it is shorter
than 50 characters, then drop the (possibly new) last line if it is shorter
than 50 characters. -/
def dropShortEdgeLines (lines : List Str) : List Str :=
  if lines.length > 2 then
    let lines1 :=
      match lines with
      | [] => lines
      | first :: restL => if first.length < 50 then restL else lines
    match lines1.getLast? with
    | none => lines1
    | some last => if last.length < 50 then lines1.dropLast else lines1
  else lines

/-- Model of `PDFPipeline._clean_text`: collapse whitespace, strip digit-only lines,
apply the header/footer heuristic to the lines split on `'\n'`, join the
lines back with `'\n'` and strip the result. -/
def clean_text (text : Str) : Str :=
  let text := collapseWhitespace text
  let text := re_sub_digit_lines text
  let lines := text.splitOn '\n'
  let lines := dropShortEdgeLines lines
  pyStrip (List.intercalate ['\n'] lines)

end PDFPipeline

namespace RoutesIngest

/-- The value of `settings.MAX_UPLOAD_SIZE_BYTES` with the default 25 MB limit. -/
def MAX_UPLOAD_SIZE_BYTES : Nat := 25 * 1024 * 1024

/-- The uploaded multipart file: its filename and the number of bytes read by
`await file.read()` (only the length is compared against the limit). -/
structure UploadFile where
  filename : Str
  size : Nat
deriving DecidableEq, Repr

/-- The result of Python's `json.loads` on the `urls` form field, reduced to
what the handler inspects: a JSON list (whose elements it forwards to the
worker task) or any other JSON value. -/
inductive PyJson where
  | jlist (elems : List String)
  | other
deriving DecidableEq, Repr

/-- The observable outcome of one `POST /ingest` request. -/
inductive IngestOutcome where
  /-- An `IngestResponse` with `status="queued"` after enqueuing
  `process_pdf_task` for the uploaded file. -/
  | queuedPdf (filename : Str)
  /-- An `IngestResponse` with `status="queued"` after enqueuing
  `process_urls_task` for the given urls. -/
  | queuedUrls (urls : List String)
  /-- An `HTTPException` with the given 4xx status code. -/
  | clientError (code : Nat) (detail : String)
  /-- An `HTTPException` 500 (an uncaught exception re-raised by the outer
  handler, e.g. the `ValueError` for a non-list JSON value). -/
  | serverError (detail : String)
deriving DecidableEq, Repr

/-- Is the outcome a 400 client error? -/
def isClient400 : IngestOutcome → Bool
  | IngestOutcome.clientError 400 _ => true
  | _ => false

/-- Did the outcome enqueue a background task? -/
def enqueuedTask : IngestOutcome → Bool
  | IngestOutcome.queuedPdf _ => true
  | IngestOutcome.queuedUrls _ => true
  | _ => false

/-- The PDF branch of the `ingest` handler (`if file:`): reject a filename
not ending in `.pdf` (after lower-casing) with 400, reject an oversized file
with 413, otherwise upload to blob storage and enqueue `process_pdf_task`. -/
def pdfBranch (f : UploadFile) : IngestOutcome :=
  if !(".pdf".data.isSuffixOf (pyLower f.filename)) then
    IngestOutcome.clientError 400 "Only PDF files are supported"
  else if f.size > MAX_UPLOAD_SIZE_BYTES then
    IngestOutcome.clientError 413 "File size exceeds 25MB limit"
  else
    IngestOutcome.queuedPdf f.filename

/-- The URL branch of the `ingest` handler (`elif urls:`): parse the form
field as JSON (400 on a parse error), require a list (`ValueError` escapes
the inner `except json.JSONDecodeError` and becomes a 500), reject an empty
list with 400, otherwise enqueue `process_urls_task`. -/
def urlBranch (json_loads : String → Option PyJson) (u : String) : IngestOutcome :=
  match json_loads u with
  | none => IngestOutcome.clientError 400 "Invalid JSON format for URLs"
  | some PyJson.other => IngestOutcome.serverError "URLs must be a list"
  | some (PyJson.jlist url_list) =>
    if url_list.isEmpty then
      IngestOutcome.clientError 400 "URL list cannot be empty"
    else
      IngestOutcome.queuedUrls url_list

/-- The `POST /ingest` handler (`app/api/routes_ingest.py`).  `json_loads`
abstracts the standard-library JSON parser (`none` = `JSONDecodeError`).
Python truthiness: an `UploadFile` object is always truthy, a string is
truthy iff non-empty, so `if file: ... elif urls: ... else: 400`. -/
def ingest (json_loads : String → Option PyJson) (file : Option UploadFile)
    (urls : Option String) : IngestOutcome :=
  match file with
  | some f => pdfBranch f
  | none =>
    match urls with
    | some u =>
      if u.isEmpty then IngestOutcome.clientError 400 "Either file or urls must be provided"
      else urlBranch json_loads u
    | none => IngestOutcome.clientError 400 "Either file or urls must be provided"

end RoutesIngest

/-! Spec-side reformulations and concrete example inputs used by the
theorems below. -/

namespace Guardrails

/-- The three disclaimer types present in the `DISCLAIMERS` dict (spec-side
enumeration used to restate `add_disclaimers`). -/
def knownDisclaimerTypes : List String := ["medical", "spiritual", "safety"]

end Guardrails

namespace PDFPipeline

/-- A three-line extracted page: a short header line, a body line of more
than 50 characters, and a digit-only footer line. -/
def examplePage : Str :=
  "Page Header\nThis is the body of the page and it is certainly longer than fifty characters.\n7".data

/-- What `clean_text` actually produces on `examplePage`: the newlines are
collapsed to spaces before any line heuristic runs, so the short header and
the digit-only footer survive in the output. -/
def examplePageCleaned : Str :=
  "Page Header This is the body of the page and it is certainly longer than fifty characters. 7".data

end PDFPipeline

namespace RoutesIngest

/-- A small valid PDF upload. -/
def examplePdfFile : UploadFile := { filename := "doc.pdf".data, size := 4 }

/-- A well-formed `urls` form field. -/
def exampleUrlsField : String := "[\"https://example.com\"]"

/-- A JSON parser behaviour consistent with `exampleUrlsField`. -/
def exampleJsonLoads : String → Option PyJson :=
  fun _ => some (PyJson.jlist ["https://example.com"])

end RoutesIngest

namespace RoutesChat

/-- A fixed RAG oracle producing two chunks, used in closed instances. -/
def exampleRag : Str → List Str := fun _ => ["alpha ".data, "beta".data]

/-- A request whose history holds a system message, an earlier user message
and a persona besides the final user message. -/
def exampleRequestLong : ChatRequest :=
  { messages := [{ role := "system", content := "You are helpful".data },
                 { role := "user", content := "earlier question".data },
                 { role := "assistant", content := "earlier answer".data },
                 { role := "user", content := "How do I meditate?".data }]
    persona := some "teacher", stream := true }

/-- A request carrying only the same final user message. -/
def exampleRequestShort : ChatRequest :=
  { messages := [{ role := "user", content := "How do I meditate?".data }]
    persona := none, stream := true }

/-- A request whose last user message mentions a crisis. -/
def exampleRequestEmergency : ChatRequest :=
  { messages := [{ role := "user", content := "I'm having a crisis".data }]
    persona := none, stream := true }

end RoutesChat

namespace VectorStore

/-- A store holding one version-1 chunk of document `guide`. -/
def exampleStore : Store :=
  [{ doc_id := "guide", version := 1, is_latest := true, title := "Guide v1".data
     content := "old text".data, source := "pdf", timestamp := "t1" }]

/-- A one-chunk batch for version 2 of document `guide`. -/
def exampleChunks : List DocChunk :=
  [{ content := "new text".data, title := "Guide v2".data, source := "pdf" }]

end VectorStore

/-! ## Theorems -/

/-- The executable substring test agrees with the mathematical infix
relation. -/
theorem occursIn_iff_isInfix (p s : Str) : occursIn p s = true ↔ p <:+: s := by
  induction s with
  | nil => simp [occursIn, List.isEmpty_iff, List.infix_nil]
  | cons c rest ih =>
    simp [occursIn, Bool.or_eq_true, List.isPrefixOf_iff_prefix, ih, List.infix_cons_iff]

/-- An `any`-of-`occursIn` test agrees with existence of an infix keyword. -/
theorem any_occursIn_iff (L : List Str) (s : Str) :
    L.any (fun k => occursIn k s) = true ↔ ∃ k ∈ L, k <:+: s := by
  simp [List.any_eq_true, occursIn_iff_isInfix]

namespace Guardrails

/-- The `medical_query` issue is flagged exactly when a medical keyword is a
substring of the lower-cased query. -/
theorem medical_query_mem_issues (q : Str) :
    "medical_query" ∈ (check_query q).issues ↔
      ∃ k ∈ MEDICAL_KEYWORDS, k <:+: pyLower q := by
  rw [← any_occursIn_iff]
  unfold check_query
  cases hM : MEDICAL_KEYWORDS.any (fun k => occursIn k (pyLower q)) <;>
    cases hE : emergency_keywords.any (fun k => occursIn k (pyLower q)) <;>
      simp [hM, hE]

/-- The `emergency` issue is flagged exactly when an emergency keyword is a
substring of the lower-cased query. -/
theorem emergency_mem_issues (q : Str) :
    "emergency" ∈ (check_query q).issues ↔
      ∃ k ∈ emergency_keywords, k <:+: pyLower q := by
  rw [← any_occursIn_iff]
  unfold check_query
  cases hM : MEDICAL_KEYWORDS.any (fun k => occursIn k (pyLower q)) <;>
    cases hE : emergency_keywords.any (fun k => occursIn k (pyLower q)) <;>
      simp [hM, hE]

/-- The `is_safe` flag holds exactly when the issue list is empty. -/
theorem is_safe_iff_issues_nil (q : Str) :
    (check_query q).is_safe = true ↔ (check_query q).issues = [] := by
  unfold check_query
  simp [List.length_eq_zero]

/-- The `requires_disclaimer` flag holds exactly when the issue list is
nonempty. -/
theorem requires_disclaimer_iff_issues_ne (q : Str) :
    (check_query q).requires_disclaimer = true ↔ (check_query q).issues ≠ [] := by
  unfold check_query
  cases hM : MEDICAL_KEYWORDS.any (fun k => occursIn k (pyLower q)) <;>
    cases hE : emergency_keywords.any (fun k => occursIn k (pyLower q)) <;>
      simp [hM, hE]

/-- C4.  `check_query q` flags `medical_query` iff a term of the fixed
medical list is a substring of the lower-cased `q`, flags `emergency` iff
one of `emergency`, `crisis`, `suicide`, `harm` is a substring, and returns
`is_safe` exactly when `issues` is empty and `requires_disclaimer` exactly
when `issues` is nonempty. -/
theorem check_query_spec (q : Str) :
    ("medical_query" ∈ (check_query q).issues ↔
      ∃ k ∈ MEDICAL_KEYWORDS, k <:+: pyLower q) ∧
    ("emergency" ∈ (check_query q).issues ↔
      ∃ k ∈ emergency_keywords, k <:+: pyLower q) ∧
    ((check_query q).is_safe = true ↔ (check_query q).issues = []) ∧
    ((check_query q).requires_disclaimer = true ↔ (check_query q).issues ≠ []) :=
  ⟨medical_query_mem_issues q, emergency_mem_issues q,
   is_safe_iff_issues_nil q, requires_disclaimer_iff_issues_ne q⟩

end Guardrails

namespace RoutesChat

open Guardrails RAGChain

/-- The `chat` handler is a function of the last user message's content and
the stream flag alone. -/
theorem chat_factors_through_last_user (rag : Str → List Str) (req : ChatRequest) (c : Str)
    (h : lastUserContent req = some c) :
    chat rag req = chatQuery rag c req.stream := by
  unfold lastUserContent at h
  cases hl : (req.messages.filter (fun m => m.role == "user")).getLast? with
  | none => rw [hl] at h; simp at h
  | some m =>
    rw [hl] at h
    simp only [Option.map_some', Option.some.injEq] at h
    simp only [chat, hl, h]

/-- C3.  When the last user message contains an emergency keyword, `POST
/chat` returns the fixed emergency message with an empty citations list —
for every RAG oracle (so no retrieval and no generation influences the
result) and regardless of the stream flag. -/
theorem chat_emergency_short_circuit (rag : Str → List Str) (req : ChatRequest) (c : Str)
    (hc : lastUserContent req = some c)
    (he : ∃ k ∈ emergency_keywords, k <:+: pyLower c) :
    chat rag req = ChatResult.response handle_emergency [] := by
  rw [chat_factors_through_last_user rag req c hc]
  unfold chatQuery
  rw [if_pos ((emergency_mem_issues c).mpr he)]

/-- Closed instance of `chat_emergency_short_circuit`. -/
theorem chat_emergency_short_circuit_witness :
    chat exampleRag exampleRequestEmergency = ChatResult.response handle_emergency [] :=
  chat_emergency_short_circuit exampleRag exampleRequestEmergency
    "I'm having a crisis".data (by decide) (by decide)

/-- C9.  Two chat requests whose last user messages have the same content
(and the same stream flag) get the same result from the same RAG oracle:
earlier messages, assistant/system messages and the persona field do not
influence the outcome. -/
theorem chat_last_user_noninterference (rag : Str → List Str) (r1 r2 : ChatRequest) (c : Str)
    (h1 : lastUserContent r1 = some c) (h2 : lastUserContent r2 = some c)
    (hs : r1.stream = r2.stream) :
    chat rag r1 = chat rag r2 := by
  rw [chat_factors_through_last_user rag r1 c h1,
      chat_factors_through_last_user rag r2 c h2, hs]

/-- Closed instance of `chat_last_user_noninterference`: a request with a
persona, a system message, an earlier user turn and an assistant turn is
treated like the bare request with the same final user message. -/
theorem chat_last_user_noninterference_witness :
    chat exampleRag exampleRequestLong = chat exampleRag exampleRequestShort :=
  chat_last_user_noninterference exampleRag exampleRequestLong exampleRequestShort
    "How do I meditate?".data (by decide) (by decide) rfl

/-- Concatenated content chunks of the stream event list built by the chat
handler recover exactly the concatenation of the generated chunks. -/
theorem contentConcat_map_content (l : List Str) (cs : List Citation) :
    contentConcat (l.map Event.content ++ [Event.citations cs, Event.done])
      = strConcat l := by
  induction l with
  | nil => rfl
  | cons x xs ih =>
    simp only [List.map_cons, List.cons_append, contentConcat, List.append_eq,
      strConcat, List.flatten_cons] at ih ⊢
    rw [ih]

/-- C10.  In streaming mode (with no emergency short circuit), the emitted
events are one `content` event per raw generated chunk followed by one
`citations` event and `[DONE]`; the concatenation of the content chunks is
exactly the raw generated response, while the disclaimer step only feeds the
text from which the citations event is computed. -/
theorem chat_stream_content_equals_raw (rag : Str → List Str) (req : ChatRequest) (c : Str)
    (hc : lastUserContent req = some c)
    (he : "emergency" ∉ (check_query c).issues)
    (hs : req.stream = true) :
    chat rag req = ChatResult.streamResp
      ((rag c).map Event.content
        ++ [Event.citations (extract_citations
              (finalTextWithDisclaimers c (strConcat (rag c)))), Event.done]) ∧
    contentConcat
      ((rag c).map Event.content
        ++ [Event.citations (extract_citations
              (finalTextWithDisclaimers c (strConcat (rag c)))), Event.done])
      = strConcat (rag c) := by
  constructor
  · rw [chat_factors_through_last_user rag req c hc, hs]
    unfold chatQuery
    rw [if_neg he]
    rfl
  · exact contentConcat_map_content _ _


/-- Closed instance of `chat_stream_content_equals_raw`. -/
theorem chat_stream_content_equals_raw_witness :
    chat exampleRag exampleRequestShort = ChatResult.streamResp
      ((exampleRag "How do I meditate?".data).map Event.content
        ++ [Event.citations (extract_citations
              (finalTextWithDisclaimers "How do I meditate?".data
                (strConcat (exampleRag "How do I meditate?".data)))), Event.done]) ∧
    contentConcat
      ((exampleRag "How do I meditate?".data).map Event.content
        ++ [Event.citations (extract_citations
              (finalTextWithDisclaimers "How do I meditate?".data
                (strConcat (exampleRag "How do I meditate?".data)))), Event.done])
      = strConcat (exampleRag "How do I meditate?".data) :=
  chat_stream_content_equals_raw exampleRag exampleRequestShort
    "How do I meditate?".data (by decide) (by decide) rfl

end RoutesChat

namespace RAGGraph

/-- The retrieval gate requests a retry exactly when fewer than 2 documents
were retrieved and the shared budget is not exhausted. -/
theorem check_retrieval_gate_iff (s : GraphState) :
    (check_retrieval_node s).needs_retry = true ↔
      s.documents.length < 2 ∧ s.retry_count < max_retries := by
  simp [check_retrieval_node]

/-- The response gate requests a retry exactly when a critical issue was
flagged and the shared budget is not exhausted. -/
theorem check_response_gate_iff (s : GraphState) :
    (check_response_node s).needs_retry = true ↔
      hasCriticalIssue s.response = true ∧ s.retry_count < max_retries := by
  simp [check_response_node, Bool.and_eq_true]

/-- The retrieval gate increments the shared counter exactly when it
retries. -/
theorem check_retrieval_gate_incr (s : GraphState) :
    (check_retrieval_node s).retry_count =
      if (check_retrieval_node s).needs_retry then s.retry_count + 1
      else s.retry_count := rfl

/-- The response gate increments the shared counter exactly when it
retries. -/
theorem check_response_gate_incr (s : GraphState) :
    (check_response_node s).retry_count =
      if (check_response_node s).needs_retry then s.retry_count + 1
      else s.retry_count := rfl

/-- Every transition of the graph preserves the retry-budget bound. -/
theorem gstep_retry_le {c c' : Config} (h : GStep c c')
    (hle : c.2.retry_count ≤ max_retries) : c'.2.retry_count ≤ max_retries := by
  cases h with
  | rewrite s q => exact hle
  | retrieveDocs s docs => exact hle
  | generateResp s resp => exact hle
  | addCitations s => exact hle
  | checkRetrieval s =>
    have heq : (check_retrieval_node s).retry_count =
        if decide (s.documents.length < 2 ∧ s.retry_count < max_retries)
        then s.retry_count + 1 else s.retry_count := rfl
    show (check_retrieval_node s).retry_count ≤ max_retries
    rw [heq]
    split
    · next hcond =>
      have h2 := of_decide_eq_true hcond
      omega
    · exact hle
  | checkResponse s =>
    have heq : (check_response_node s).retry_count =
        if hasCriticalIssue s.response && decide (s.retry_count < max_retries)
        then s.retry_count + 1 else s.retry_count := rfl
    show (check_response_node s).retry_count ≤ max_retries
    rw [heq]
    split
    · next hcond =>
      rw [Bool.and_eq_true] at hcond
      have h2 := of_decide_eq_true hcond.2
      omega
    · exact hle

/-- Every reachable configuration of one `invoke` respects the shared retry
budget. -/
theorem reachable_retry_le (q : Str) (c : Config) (h : Reachable q c) :
    c.2.retry_count ≤ max_retries := by
  induction h with
  | refl => exact Nat.zero_le _
  | tail _ hbc ih => exact gstep_retry_le hbc ih

/-- C1.  The two corrective loops of the stateful RAG graph share one retry
counter bounded by 2: the retrieval gate retries only when fewer than 2
documents were retrieved and the counter is below `max_retries = 2`, the
response gate retries only when a critical issue (missing citations or
medical advice) is flagged and the counter is below the budget, each gate
increments the counter exactly when it retries, and every configuration
reachable during an `invoke` — in particular the terminal one — has
`retry_count ≤ 2`. -/
theorem rag_graph_retry_budget :
    (∀ s : GraphState, (check_retrieval_node s).needs_retry = true ↔
        s.documents.length < 2 ∧ s.retry_count < max_retries) ∧
    (∀ s : GraphState, (check_response_node s).needs_retry = true ↔
        hasCriticalIssue s.response = true ∧ s.retry_count < max_retries) ∧
    (∀ s : GraphState, (check_retrieval_node s).retry_count =
        if (check_retrieval_node s).needs_retry then s.retry_count + 1
        else s.retry_count) ∧
    (∀ s : GraphState, (check_response_node s).retry_count =
        if (check_response_node s).needs_retry then s.retry_count + 1
        else s.retry_count) ∧
    (∀ (q : Str) (c : Config), Reachable q c → c.2.retry_count ≤ max_retries) :=
  ⟨check_retrieval_gate_iff, check_response_gate_iff,
   check_retrieval_gate_incr, check_response_gate_incr, reachable_retry_le⟩

/-- Closed instance of `rag_graph_retry_budget` at the entry configuration. -/
theorem rag_graph_retry_budget_witness :
    (initial_state []).retry_count ≤ max_retries :=
  rag_graph_retry_budget.2.2.2.2 [] (Node.rewrite_query, initial_state [])
    Relation.ReflTransGen.refl

end RAGGraph

namespace VectorStore

/-- Every record of a freshly built upsert batch carries the requested
`doc_id` and `version` and is marked latest. -/
theorem mkSearchDocuments_fields (docs : List DocChunk) (d : String) (v : Nat) (ts : String) :
    ∀ r ∈ mkSearchDocuments docs d v ts, r.doc_id = d ∧ r.version = v ∧ r.is_latest = true := by
  intro r hr
  simp only [mkSearchDocuments, List.mem_map] at hr
  obtain ⟨doc, _, rfl⟩ := hr
  exact ⟨rfl, rfl, rfl⟩

/-- After `_mark_old_versions`, no record of `doc_id` is marked latest. -/
theorem mark_old_versions_none_latest (store : Store) (d : String) :
    ∀ r ∈ mark_old_versions store d, r.doc_id = d → r.is_latest = false := by
  intro r hr hd
  simp only [mark_old_versions, List.mem_map] at hr
  obtain ⟨r0, _, rfl⟩ := hr
  by_cases hc : (r0.doc_id == d && r0.is_latest) = true
  · rw [if_pos hc]
  · rw [if_neg hc] at hd ⊢
    cases hl : r0.is_latest
    · rfl
    · exact absurd (by rw [Bool.and_eq_true]; exact ⟨beq_iff_eq.mpr hd, hl⟩) hc

/-- For a new version (`v > 1`), the latest records of `doc_id` after the
upsert are exactly the newly written batch. -/
theorem upsert_latest_records (store : Store) (docs : List DocChunk) (d : String)
    (v : Nat) (ts : String) (hv : 1 < v) :
    (upsert_documents store docs d v ts).filter (fun r => r.doc_id == d && r.is_latest) =
      mkSearchDocuments docs d v ts := by
  unfold upsert_documents
  rw [if_pos hv, List.filter_append]
  have h1 : (mark_old_versions store d).filter (fun r => r.doc_id == d && r.is_latest) = [] := by
    rw [List.filter_eq_nil_iff]
    intro r hr
    by_cases hd : r.doc_id = d
    · have hfalse := mark_old_versions_none_latest store d r hr hd
      simp [hfalse]
    · simp [hd]
  have h2 : (mkSearchDocuments docs d v ts).filter (fun r => r.doc_id == d && r.is_latest) =
      mkSearchDocuments docs d v ts := by
    rw [List.filter_eq_self]
    intro r hr
    obtain ⟨hd, _, hl⟩ := mkSearchDocuments_fields docs d v ts r hr
    simp [hd, hl]
  rw [h1, h2, List.nil_append]

/-- C2.  A successful `upsert_documents(documents, doc_id, version)` writes
only records carrying the given version with `is_latest = true`; when
`version > 1` it first flips every previously-latest record of `doc_id` to
`is_latest = false` and only then appends the new records, so afterwards the
records of `doc_id` with `is_latest = true` are exactly the new batch. -/
theorem upsert_documents_versioning (store : Store) (docs : List DocChunk) (d : String)
    (v : Nat) (ts : String) :
    (∀ r ∈ mkSearchDocuments docs d v ts, r.doc_id = d ∧ r.version = v ∧ r.is_latest = true) ∧
    (1 < v → upsert_documents store docs d v ts =
        mark_old_versions store d ++ mkSearchDocuments docs d v ts) ∧
    (∀ r ∈ mark_old_versions store d, r.doc_id = d → r.is_latest = false) ∧
    (1 < v → (upsert_documents store docs d v ts).filter
        (fun r => r.doc_id == d && r.is_latest) = mkSearchDocuments docs d v ts) :=
  ⟨mkSearchDocuments_fields docs d v ts,
   fun hv => by unfold upsert_documents; rw [if_pos hv],
   mark_old_versions_none_latest store d,
   fun hv => upsert_latest_records store docs d v ts hv⟩

/-- Closed instance of `upsert_documents_versioning`: re-ingesting document
`guide` at version 2 over a version-1 store leaves exactly the version-2
batch marked latest. -/
theorem upsert_documents_versioning_witness :
    (upsert_documents exampleStore exampleChunks "guide" 2 "t2").filter
        (fun r => r.doc_id == "guide" && r.is_latest) =
      mkSearchDocuments exampleChunks "guide" 2 "t2" :=
  (upsert_documents_versioning exampleStore exampleChunks "guide" 2 "t2").2.2.2
    (by decide)

end VectorStore

namespace VectorStoreStatus

open VectorStore

/-- C5.  `check_document_ingested` never raises (it is a total function into
result payloads): a failing underlying search call yields `ingested = false`
with the error text; with no latest record of `doc_id` it yields
`ingested = false` (and no error); and with a latest record it yields
`ingested = true` along with that record's version, title, source and
timestamp. -/
theorem check_document_ingested_spec (store : Store) (err : Option String) (d : String) :
    (∀ e, err = some e → check_document_ingested store err d =
      { ingested := false, doc_id := d, version := none, title := none, source := none
        timestamp := none, total_docs_in_index := none, total_docs_for_id := none
        error := some e }) ∧
    (err = none → store.filter (fun r => r.doc_id == d && r.is_latest) = [] →
      (check_document_ingested store err d).ingested = false ∧
      (check_document_ingested store err d).error = none) ∧
    (err = none → ∀ (r : SearchRecord) (rest : List SearchRecord),
      store.filter (fun r => r.doc_id == d && r.is_latest) = r :: rest →
      r.doc_id = d ∧ r.is_latest = true ∧
      check_document_ingested store err d =
        { ingested := true, doc_id := r.doc_id, version := some r.version
          title := some r.title, source := some r.source, timestamp := some r.timestamp
          total_docs_in_index := some store.length
          total_docs_for_id := some (store.filter (fun r => r.doc_id == d)).length
          error := none }) := by
  refine ⟨?_, ?_, ?_⟩
  · intro e he
    subst he
    rfl
  · intro he hnil
    subst he
    simp [check_document_ingested, hnil]
  · intro he r rest hcons
    subst he
    have hrmem : r ∈ store.filter (fun r => r.doc_id == d && r.is_latest) := by
      rw [hcons]; exact List.mem_cons_self r rest
    have hpred := (List.mem_filter.mp hrmem).2
    rw [Bool.and_eq_true] at hpred
    refine ⟨beq_iff_eq.mp hpred.1, hpred.2, ?_⟩
    simp [check_document_ingested, hcons]

/-- Closed instance of `check_document_ingested_spec` on the example store. -/
theorem check_document_ingested_spec_witness :
    check_document_ingested exampleStore none "guide" =
      { ingested := true, doc_id := "guide", version := some 1
        title := some "Guide v1".data, source := some "pdf", timestamp := some "t1"
        total_docs_in_index := some 1, total_docs_for_id := some 1, error := none } :=
  ((check_document_ingested_spec exampleStore none "guide").2.2 rfl
    { doc_id := "guide", version := 1, is_latest := true, title := "Guide v1".data
      content := "old text".data, source := "pdf", timestamp := "t1" } []
    (by decide)).2.2

end VectorStoreStatus

namespace PDFPipeline

/-- The whitespace-collapse step leaves no newline in its output (every
newline is itself whitespace and is replaced by a space), which is why the
subsequent line-based heuristics of `_clean_text` never see more than one
line. -/
theorem collapseWsAux_no_newline (s : Str) (b : Bool) : '\n' ∉ collapseWsAux b s := by
  induction s generalizing b with
  | nil => simp [collapseWsAux]
  | cons c rest ih =>
    simp only [collapseWsAux]
    split
    · next hws =>
      cases b with
      | true =>
        show Char.ofNat 10 ∉ ([] : Str) ++ collapseWsAux true rest
        rw [List.nil_append]
        exact ih true
      | false =>
        show Char.ofNat 10 ∉ ([' '] : Str) ++ collapseWsAux true rest
        rw [List.singleton_append]
        intro hmem
        rcases List.mem_cons.mp hmem with h | h
        · exact absurd h (by decide)
        · exact ih true h
    · next hws =>
      simp only [List.mem_cons]
      rintro (h | h)
      · subst h; exact hws (by decide)
      · exact ih false h

/-- C6 (code bug).  On a three-line page with a short header line, a long
body line and a digit-only footer line, `_clean_text` keeps the header and
the footer: the first cleaning step collapses the newlines into spaces, so
the digit-only-line strip and the drop-short-first/last-line heuristics
never fire, and the output is the single collapsed line — contradicting the
claimed (and commented) header/footer and page-number removal. -/
theorem clean_text_keeps_short_header_and_digit_footer :
    clean_text examplePage = examplePageCleaned ∧
    occursIn "Page Header".data (clean_text examplePage) = true ∧
    occursIn ['7'] (clean_text examplePage) = true := by
  set_option maxRecDepth 4000 in decide

end PDFPipeline

namespace RoutesIngest

/-- C7 counterexample.  A request supplying both a valid PDF file and a
well-formed `urls` form field is not rejected with a 400: the handler takes
the `if file:` branch, ignores `urls`, and enqueues the PDF ingestion
task. -/
theorem ingest_both_given_takes_file_branch :
    ingest exampleJsonLoads (some examplePdfFile) (some exampleUrlsField) =
      IngestOutcome.queuedPdf "doc.pdf".data ∧
    isClient400 (ingest exampleJsonLoads (some examplePdfFile) (some exampleUrlsField))
      = false ∧
    enqueuedTask (ingest exampleJsonLoads (some examplePdfFile) (some exampleUrlsField))
      = true := by decide

/-- C7 (amended).  When a file is supplied, `POST /ingest` behaves exactly
as if `urls` were absent — the `urls` field is ignored rather than causing a
mutual-exclusivity rejection — and a `.pdf` file within the size limit is
queued for PDF ingestion. -/
theorem ingest_file_present_ignores_urls (jl : String → Option PyJson) (f : UploadFile)
    (urls : Option String) :
    ingest jl (some f) urls = ingest jl (some f) none ∧
    (".pdf".data.isSuffixOf (pyLower f.filename) = true →
      f.size ≤ MAX_UPLOAD_SIZE_BYTES →
      ingest jl (some f) urls = IngestOutcome.queuedPdf f.filename) := by
  constructor
  · rfl
  · intro hsuf hsize
    show pdfBranch f = _
    unfold pdfBranch
    rw [hsuf]
    simp only [Bool.not_true, Bool.false_eq_true, if_false]
    rw [if_neg (Nat.not_lt.mpr hsize)]

/-- Closed instance of `ingest_file_present_ignores_urls`. -/
theorem ingest_file_present_ignores_urls_witness :
    ingest exampleJsonLoads (some examplePdfFile) (some exampleUrlsField) =
      IngestOutcome.queuedPdf "doc.pdf".data :=
  (ingest_file_present_ignores_urls exampleJsonLoads examplePdfFile
    (some exampleUrlsField)).2 (by decide) (by decide)

end RoutesIngest

namespace Guardrails

/-- C8 counterexample.  Requesting the `medical` disclaimer twice appends it
twice: the loop over `disclaimer_types` performs no de-duplication. -/
theorem add_disclaimers_duplicates_counterexample :
    add_disclaimers "x".data ["medical", "medical"] =
      "x".data ++ "\n\n".data ++ DISCLAIMER_medical ++ "\n".data ++ DISCLAIMER_medical ∧
    add_disclaimers "x".data ["medical", "medical"] ≠
      "x".data ++ "\n\n".data ++ DISCLAIMER_medical := by
  set_option maxRecDepth 4000 in decide

/-- A requested type has a disclaimer exactly when it is one of the three
known types. -/
theorem DISCLAIMERS_lookup_isSome_eq_contains (t : String) :
    (DISCLAIMERS_lookup t).isSome = knownDisclaimerTypes.contains t := by
  unfold DISCLAIMERS_lookup knownDisclaimerTypes
  by_cases h1 : t = "medical"
  · simp [h1]
  · by_cases h2 : t = "spiritual"
    · simp [h1, h2]
    · by_cases h3 : t = "safety" <;> simp [h1, h2, h3]

/-- The disclaimer texts collected by `add_disclaimers` are one text per
occurrence of a known requested type, in request order. -/
theorem filterMap_lookup_eq_filter_map (types : List String) :
    types.filterMap DISCLAIMERS_lookup =
      (types.filter (fun t => knownDisclaimerTypes.contains t)).map
        (fun t => (DISCLAIMERS_lookup t).getD []) := by
  induction types with
  | nil => rfl
  | cons t ts ih =>
    rw [List.filterMap_cons, List.filter_cons]
    cases hl : DISCLAIMERS_lookup t with
    | none =>
      have hc : knownDisclaimerTypes.contains t = false := by
        rw [← DISCLAIMERS_lookup_isSome_eq_contains, hl]; rfl
      rw [hc]
      simpa using ih
    | some v =>
      have hc : knownDisclaimerTypes.contains t = true := by
        rw [← DISCLAIMERS_lookup_isSome_eq_contains, hl]; rfl
      rw [hc]
      simp [hl, ih]

/-- C8 (amended).  `add_disclaimers` appends, in the requested order, the
fixed disclaimer string for each occurrence of a requested known type
(`medical`, `spiritual`, `safety`) — a type requested more than once is
appended as many times as requested — separated from the body by a blank
line and joined by newlines; when no known type is requested the response
is returned unchanged. -/
theorem add_disclaimers_per_occurrence (response : Str) (types : List String) :
    add_disclaimers response types =
      (if (types.filter (fun t => knownDisclaimerTypes.contains t)).isEmpty then response
       else response ++ "\n\n".data ++ List.intercalate "\n".data
         ((types.filter (fun t => knownDisclaimerTypes.contains t)).map
           (fun t => (DISCLAIMERS_lookup t).getD []))) := by
  unfold add_disclaimers
  rw [filterMap_lookup_eq_filter_map]
  cases hts : types.filter (fun t => knownDisclaimerTypes.contains t) with
  | nil => rfl
  | cons a l => simp

end Guardrails

end ThirdEye
